import Mathlib

/-!
Verification development for the `supa-simple-socket` WebSocket client
(`src/index.ts`).  The connection lifecycle engine is shallowly embedded:
JavaScript values are modelled by `JValue`, the engine's mutable fields by
`SocketState`, and every side effect (event bus emission, transport send,
timer scheduling) by an explicit `Action` recorded in an output list.
Machine numbers are modelled by `ℚ` (so that `Math.pow(1.5, k)` is exact);
`Math.min` is `min` on `ℚ`.  The platform pieces the spec declares out of
scope (the raw transport, `JSON.parse`/`JSON.stringify`) appear as explicit
parameters or as simple executable stand-ins whose internal text the claims
never inspect.
-/

namespace SupaSocket

/-- A JavaScript runtime value, as relevant to this engine: `null`, booleans,
numbers (modelled by `ℚ`), strings, arrays, plain objects (ordered field
lists) and opaque binary payloads (`ArrayBuffer`/`Blob`).  `undefined` is
represented by `Option.none` at the point of property lookup rather than as
a value. -/
inductive JValue : Type where
  | null : JValue
  | bool : Bool → JValue
  | num : ℚ → JValue
  | str : String → JValue
  | arr : List JValue → JValue
  | obj : List (String × JValue) → JValue
  | binary : List Nat → JValue

/-- JavaScript truthiness of a value (`if (x)`): `null`, `false`, `0` and the
empty string are falsy; every array, object and binary value is truthy. -/
def truthy : JValue → Bool
  | .null => false
  | .bool b => b
  | .num q => q ≠ 0
  | .str s => s ≠ ""
  | .arr _ => true
  | .obj _ => true
  | .binary _ => true

/-- `typeof x === 'object'`: true for `null` (a JavaScript quirk), arrays,
plain objects and binary values; false for booleans, numbers and strings. -/
def typeofObject : JValue → Bool
  | .null => true
  | .arr _ => true
  | .obj _ => true
  | .binary _ => true
  | _ => false

/-- Property lookup on an object's ordered field list: the last binding of a
key wins (as in a JavaScript object literal); `none` plays `undefined`. -/
def lookupField (fields : List (String × JValue)) (k : String) : Option JValue :=
  match fields.reverse.find? (fun kv => kv.1 = k) with
  | some kv => some kv.2
  | none => none

/-- Property access `x[k]` on a non-`null` value.  On plain objects it is
field lookup; on every other non-`null` value it yields `undefined`
(built-in properties and array index keys are not modelled — no claim
inspects them).  Access on `null` throws a `TypeError`; that case is handled
separately by `propAccess`. -/
def getProp : JValue → String → Option JValue
  | .obj fields, k => lookupField fields k
  | _, _ => none

/-- Property access `x[k]` including the JavaScript `TypeError` raised when
`x` is `null` (modelled by `Except.error`). -/
def propAccess : JValue → String → Except Unit (Option JValue)
  | .null, _ => .error ()
  | v, k => .ok (getProp v k)

/-- JavaScript strict equality `===` restricted to the values that can meet
in this engine: structural equality on the primitives `null`, booleans,
numbers and strings; `false` whenever either side is an array, object or
binary value.  (`===` compares objects by reference, and every structured
inbound value is freshly produced by `JSON.parse`, so it is never
reference-identical to a configured template value.) -/
def strictEq : JValue → JValue → Bool
  | .null, .null => true
  | .bool a, .bool b => a = b
  | .num a, .num b => a = b
  | .str a, .str b => a = b
  | _, _ => false

/-- `Object.keys(x)` paired with the corresponding values: the own enumerable
entries of a plain object, in insertion order.  Arrays' index keys and other
values' (empty) key sets are not modelled beyond the empty list — binary
values genuinely have no enumerable own keys, and no claim configures an
array template. -/
def ownEntries : JValue → List (String × JValue)
  | .obj fields => fields
  | _ => []

mutual

/-- Models the platform `JSON.stringify` (declared out of scope by the spec);
the claims only require that non-string, non-binary payloads are encoded to
some string, never the exact text.  String escaping is elided. -/
def JValue.stringify : JValue → String
  | .null => "null"
  | .bool true => "true"
  | .bool false => "false"
  | .num q => toString q
  | .str s => "\"" ++ s ++ "\""
  | .arr xs => "[" ++ stringifyList xs ++ "]"
  | .obj fs => "\x7b" ++ stringifyFields fs ++ "\x7d"
  | .binary _ => "\x7b\x7d"

/-- Comma-separated encoding of an array's elements. -/
def stringifyList : List JValue → String
  | [] => ""
  | [x] => x.stringify
  | x :: y :: xs => x.stringify ++ "," ++ stringifyList (y :: xs)

/-- Comma-separated encoding of an object's fields. -/
def stringifyFields : List (String × JValue) → String
  | [] => ""
  | [kv] => "\"" ++ kv.1 ++ "\":" ++ kv.2.stringify
  | kv :: kv2 :: fs => "\"" ++ kv.1 ++ "\":" ++ kv.2.stringify ++ "," ++ stringifyFields (kv2 :: fs)

end

/-- The object spread `{...fields, k: v}`: if `k` is already present its
(first) occurrence keeps its position and receives the new value, otherwise
the binding is appended. -/
def setField (fields : List (String × JValue)) (k : String) (v : JValue) : List (String × JValue) :=
  if fields.any (fun kv => kv.1 = k) then
    fields.map (fun kv => if kv.1 = k then (k, v) else kv)
  else fields ++ [(k, v)]

/-- The `ConnectionState` enum of the source (numeric values 0–4). -/
inductive ConnectionState : Type where
  | CONNECTING : ConnectionState
  | OPEN : ConnectionState
  | CLOSING : ConnectionState
  | CLOSED : ConnectionState
  | RECONNECTING : ConnectionState
  deriving DecidableEq

/-- The numeric value of a `ConnectionState` enum member. -/
def stateNum : ConnectionState → ℚ
  | .CONNECTING => 0
  | .OPEN => 1
  | .CLOSING => 2
  | .CLOSED => 3
  | .RECONNECTING => 4

/-- The reverse enum mapping `ConnectionState[n]` used in event payloads. -/
def stateName : ConnectionState → String
  | .CONNECTING => "CONNECTING"
  | .OPEN => "OPEN"
  | .CLOSING => "CLOSING"
  | .CLOSED => "CLOSED"
  | .RECONNECTING => "RECONNECTING"

/-- The platform transport's `readyState` (WebSocket constants 0–3). -/
inductive WsReadyState : Type where
  | CONNECTING : WsReadyState
  | OPEN : WsReadyState
  | CLOSING : WsReadyState
  | CLOSED : WsReadyState
  deriving DecidableEq

/-- The engine's configuration after the constructor has merged the caller's
options over the defaults (`SupaSocketOptions`).  Numeric options are `ℚ`;
`reconnectLimit` is kept a natural number (the spec's data model calls the
attempt counter a non-negative integer).  `debug`, `protocols`,
`binaryType` and the four user lifecycle callbacks are omitted: they are
logging or pass-through concerns no claim mentions. -/
structure Options : Type where
  url : String
  reconnectLimit : Nat
  reconnectInterval : ℚ
  heartbeatInterval : ℚ
  heartbeatTimeout : ℚ
  autoReconnect : Bool
  autoParseMessage : Bool
  maxReconnectDelay : ℚ
  retryOnError : Bool
  connectionTimeout : ℚ
  pingMessage : JValue
  pongMessage : JValue

/-- The constructor's default option values (url merged in). -/
def defaultOptions (url : String) : Options where
  url := url
  reconnectLimit := 5
  reconnectInterval := 5000
  heartbeatInterval := 30000
  heartbeatTimeout := 5000
  autoReconnect := true
  autoParseMessage := true
  maxReconnectDelay := 30000
  retryOnError := true
  connectionTimeout := 10000
  pingMessage := .obj [("type", .str ("ping")), ("time", .num 0)]
  pongMessage := .obj [("type", .str ("pong"))]

/-- The engine's mutable fields (`SupaSocket`'s private state).  Timers are
modelled by `Bool` flags meaning "armed"; the transport handle by a presence
flag plus its `readyState`.  The event bus's subscription table is modelled
separately (`EventBus` below); the engine side records emissions as
`Action`s. -/
structure SocketState : Type where
  wsPresent : Bool
  wsReadyState : WsReadyState
  reconnectCount : Nat
  currentBackoff : Nat
  heartbeatTimer : Bool
  heartbeatTimeoutTimer : Bool
  connectionTimeoutTimer : Bool
  connState : ConnectionState
  messageQueue : List JValue
  lastMessageTime : ℚ
  explicitClose : Bool

/-- One observable side effect of an engine operation, in program order:
an event-bus emission (`emit`, with `emitDyn` for the dynamic
`type`-named fan-out whose event key is a runtime value), a successful
transport `send`, a transport `close` request, the scheduling of a delayed
`connect` (`setTimeout(() => this.connect(), delay)`), and the arming of
the recurring heartbeat interval timer. -/
inductive Action : Type where
  | emit (event : String) (payload : JValue) : Action
  | emitDyn (eventKey : JValue) (payload : JValue) : Action
  | wsSend (msg : JValue) : Action
  | wsClose : Action
  | scheduleConnect (delay : ℚ) : Action
  | heartbeatStarted : Action

/-- The `statusChange` event payload
`{newState, oldState, newStateName, oldStateName}`. -/
def statusChangePayload (newState oldState : ConnectionState) : JValue :=
  .obj [("newState", .num (stateNum newState)),
        ("oldState", .num (stateNum oldState)),
        ("newStateName", .str (stateName newState)),
        ("oldStateName", .str (stateName oldState))]

/-- The `ConnectionManager.state` setter as wired in the engine: a no-op on
an equal state, otherwise the swap followed by the constructor-registered
observer, which forwards `(newState, oldState)` to the event bus as
`statusChange`. -/
def setState (s : SocketState) (newState : ConnectionState) : SocketState × List Action :=
  if s.connState = newState then (s, [])
  else ({ s with connState := newState },
        [Action.emit ("statusChange") (statusChangePayload newState s.connState)])

/-- The attempt ceiling actually enforced: `reconnectLimit || 5`, i.e. the
configured limit unless it is falsy (`0`), in which case the fallback `5`. -/
def effectiveReconnectLimit (o : Options) : Nat :=
  if o.reconnectLimit = 0 then 5 else o.reconnectLimit

/-- The backoff delay computed by `performReconnect` from the current value
of `currentBackoff`: `reconnectInterval || 5000` when `currentBackoff` is
`0`, otherwise `Math.min(maxReconnectDelay || 30000,
(reconnectInterval || 5000) * 1.5 ** currentBackoff)`. -/
def computeDelay (o : Options) (currentBackoff : Nat) : ℚ :=
  let delay : ℚ := if o.reconnectInterval = 0 then 5000 else o.reconnectInterval
  if 0 < currentBackoff then
    min (if o.maxReconnectDelay = 0 then 30000 else o.maxReconnectDelay)
        (delay * (3 / 2) ^ currentBackoff)
  else delay

/-- `SupaSocket.performReconnect`: when `reconnectCount` has reached
`reconnectLimit || 5`, emit `reconnectFailed {attempts, limit}` and return;
otherwise set state `RECONNECTING`, increment `reconnectCount`, compute the
backoff delay from the not-yet-incremented `currentBackoff`, increment
`currentBackoff`, emit `reconnecting {attempt, limit, delay}` and schedule
`connect` after `delay`. -/
def performReconnect (o : Options) (s : SocketState) : SocketState × List Action :=
  if effectiveReconnectLimit o ≤ s.reconnectCount then
    (s, [Action.emit ("reconnectFailed")
          (.obj [("attempts", .num (s.reconnectCount : ℚ)),
                 ("limit", .num (o.reconnectLimit : ℚ))])])
  else
    let p1 := setState s .RECONNECTING
    let s2 := { p1.1 with reconnectCount := p1.1.reconnectCount + 1 }
    let delay := computeDelay o s2.currentBackoff
    let s3 := { s2 with currentBackoff := s2.currentBackoff + 1 }
    (s3, p1.2 ++
         [Action.emit ("reconnecting")
            (.obj [("attempt", .num (s2.reconnectCount : ℚ)),
                   ("limit", .num (o.reconnectLimit : ℚ)),
                   ("delay", .num delay)]),
          Action.scheduleConnect delay])

/-- `SupaSocket.prepareMessage`: strings, `ArrayBuffer`s and `Blob`s pass
through unchanged; every other value is encoded to a JSON string. -/
def prepareMessage : JValue → JValue
  | .str s => .str s
  | .binary b => .binary b
  | d => .str (d.stringify)

/-- The payload of the `error` emission `{type: 'sendError', error, data}`
(the opaque `Error` object is modelled by `null`). -/
def sendErrorPayload (data : JValue) : JValue :=
  .obj [("type", .str ("sendError")), ("error", .null), ("data", data)]

/-- `SupaSocket.send`.  The transport outcome of `this.ws.send` is supplied
by the oracle `σ` (`true`: the platform call returned; `false`: it threw).
Open transport: prepare and transmit, reporting the outcome; state
`CONNECTING` or `RECONNECTING`: append to the queue and report `true`;
otherwise emit the `sendError`-tagged `error` event and report `false`. -/
def send (σ : JValue → Bool) (s : SocketState) (data : JValue) :
    SocketState × List Action × Bool :=
  if s.wsPresent ∧ s.wsReadyState = .OPEN then
    if σ data then (s, [Action.wsSend (prepareMessage data)], true)
    else (s, [Action.emit ("error") (sendErrorPayload data)], false)
  else if s.connState = .CONNECTING ∨ s.connState = .RECONNECTING then
    ({ s with messageQueue := s.messageQueue ++ [data] }, [], true)
  else
    (s, [Action.emit ("error") (sendErrorPayload data)], false)

/-- The `forEach(msg => this.send(msg))` loop of `processMessageQueue`,
threading the engine state through the successive sends. -/
def drainSend (σ : JValue → Bool) : List JValue → SocketState → SocketState × List Action
  | [], s => (s, [])
  | m :: ms, s =>
    let r := send σ s m
    let rest := drainSend σ ms r.1
    (rest.1, r.2.1 ++ rest.2)

/-- `SupaSocket.processMessageQueue`: when the queue is non-empty, re-send
every queued message in insertion order and then empty the queue. -/
def processMessageQueue (σ : JValue → Bool) (s : SocketState) : SocketState × List Action :=
  if 0 < s.messageQueue.length then
    let r := drainSend σ s.messageQueue s
    ({ r.1 with messageQueue := [] }, r.2)
  else (s, [])

/-- `SupaSocket.startHeartbeat`: clear both heartbeat timers; if
`heartbeatInterval` is falsy or non-positive do nothing more, otherwise arm
the recurring interval timer. -/
def startHeartbeat (o : Options) (s : SocketState) : SocketState × List Action :=
  let s1 := { s with heartbeatTimer := false, heartbeatTimeoutTimer := false }
  if o.heartbeatInterval ≤ 0 then (s1, [])
  else ({ s1 with heartbeatTimer := true }, [Action.heartbeatStarted])

/-- `SupaSocket.startHeartbeatTimeout`: clear any pending timeout timer; if
`heartbeatTimeout` is falsy or non-positive stop, otherwise arm the one-shot
timeout timer. -/
def startHeartbeatTimeout (o : Options) (s : SocketState) : SocketState :=
  let s1 := { s with heartbeatTimeoutTimer := false }
  if o.heartbeatTimeout ≤ 0 then s1
  else { s1 with heartbeatTimeoutTimer := true }

/-- The `Object.keys(pongMessage).every(key => data[key] !== undefined &&
data[key] === pongMessage[key])` check, with `every`'s short-circuiting.
Property access on a `null` payload raises a `TypeError`
(`Except.error`). -/
def matchesTemplate (fields : List (String × JValue)) (d : JValue) : Except Unit Bool :=
  match fields with
  | [] => .ok true
  | (k, v) :: rest =>
    match propAccess d k with
    | .error _ => .error ()
    | .ok none => .ok false
    | .ok (some dv) =>
      if strictEq dv v then matchesTemplate rest d else .ok false

/-- `SupaSocket.isPongMessage`, parameterised by the platform `JSON.parse`
(`P`, with `none` for a parse error).  Falsy data never matches; string data
is parsed (unparseable strings never match); with a truthy object-typed
`pongMessage` template every template key must hold a strictly-equal value
in the payload; otherwise the default check is a truthy object whose `type`
equals `'pong'`.  The result is `Except.error` when the template walk reads
a property of `null`. -/
def isPongMessage (P : String → Option JValue) (o : Options) (data : JValue) :
    Except Unit Bool :=
  if ¬ truthy data then .ok false
  else
    let parsed : Option JValue :=
      match data with
      | .str s => P s
      | _ => some data
    match parsed with
    | none => .ok false
    | some d =>
      if truthy o.pongMessage && typeofObject o.pongMessage then
        matchesTemplate (ownEntries o.pongMessage) d
      else
        .ok (truthy d && typeofObject d &&
             (match getProp d ("type") with
              | some tv => strictEq tv (.str ("pong"))
              | none => false))

/-- The `ws.onopen` handler: clear the connection-timeout timer, set state
`OPEN`, reset both reconnect counters, drain the message queue, start the
heartbeat, and emit `open` (the platform has already moved the transport's
`readyState` to `OPEN` when this event fires; the user `onOpen` callback is
an unmodelled pass-through). -/
def wsOpen (σ : JValue → Bool) (o : Options) (s : SocketState) : SocketState × List Action :=
  let s0 := { s with connectionTimeoutTimer := false, wsReadyState := .OPEN }
  let p1 := setState s0 .OPEN
  let s2 := { p1.1 with reconnectCount := 0, currentBackoff := 0 }
  let p3 := processMessageQueue σ s2
  let p4 := startHeartbeat o p3.1
  (p4.1, p1.2 ++ p3.2 ++ p4.2 ++ [Action.emit ("open") .null])

/-- The payload of the `error` emission
`{type: 'messageError', error, raw: event.data}`. -/
def messageErrorPayload (raw : JValue) : JValue :=
  .obj [("type", .str ("messageError")), ("error", .null), ("raw", raw)]

/-- The `ws.onmessage` handler: record the arrival time; JSON-parse string
data when `autoParseMessage` is set (keeping the raw string on a parse
error); a pong disarms the heartbeat-timeout timer and nothing is
published; otherwise `message` is emitted and, for a truthy object payload
with a truthy `type` field, a second event is emitted under that `type`
value.  A `TypeError` escaping `isPongMessage` is caught by the handler's
`try`/`catch` and surfaces as a `messageError`-tagged `error` emission.
`handlerData` is the handler's parse step, split out so theorems can speak
about the effective payload. -/
def handlerData (P : String → Option JValue) (o : Options) (raw : JValue) : JValue :=
  if o.autoParseMessage then
    match raw with
    | .str sraw => (P sraw).getD raw
    | _ => raw
  else raw

/-- The `ws.onmessage` handler proper (see `handlerData`). -/
def wsMessage (P : String → Option JValue) (o : Options) (raw : JValue) (now : ℚ)
    (s : SocketState) : SocketState × List Action :=
  let s0 := { s with lastMessageTime := now }
  let d : JValue := handlerData P o raw
  match isPongMessage P o d with
  | .error _ => (s0, [Action.emit ("error") (messageErrorPayload raw)])
  | .ok true => ({ s0 with heartbeatTimeoutTimer := false }, [])
  | .ok false =>
    let dynCond : Bool := truthy d && typeofObject d &&
      (match getProp d ("type") with
       | some tv => truthy tv
       | none => false)
    if dynCond then
      (s0, [Action.emit ("message") d,
            Action.emitDyn ((getProp d ("type")).getD .null) d])
    else (s0, [Action.emit ("message") d])

/-- `SupaSocket.handleConnectionFailure`: drop the transport handle, then
either hand off to `performReconnect` or settle to `CLOSED`. -/
def handleConnectionFailure (o : Options) (s : SocketState) : SocketState × List Action :=
  let s0 := { s with wsPresent := false }
  if o.autoReconnect then performReconnect o s0
  else setState s0 .CLOSED

/-- The `ws.onclose` handler: clear the connection-timeout timer, set state
`CLOSED`, clear both heartbeat timers, emit `close`, and — unless the close
was explicit or auto-reconnect is off — invoke `performReconnect`. -/
def wsCloseEv (o : Options) (s : SocketState) : SocketState × List Action :=
  let s0 := { s with connectionTimeoutTimer := false, wsReadyState := .CLOSED }
  let p1 := setState s0 .CLOSED
  let s2 := { p1.1 with heartbeatTimer := false, heartbeatTimeoutTimer := false }
  let base := p1.2 ++ [Action.emit ("close") .null]
  if ¬ s2.explicitClose ∧ o.autoReconnect then
    let pr := performReconnect o s2
    (pr.1, base ++ pr.2)
  else (s2, base)

/-- The `ws.onerror` handler: emit `error`; when the transport is still
`CONNECTING` and `retryOnError` is set, treat it as a connection failure. -/
def wsErrorEv (o : Options) (s : SocketState) : SocketState × List Action :=
  let base := [Action.emit ("error") .null]
  if s.wsPresent ∧ s.wsReadyState = .CONNECTING ∧ o.retryOnError then
    let p := handleConnectionFailure o s
    (p.1, base ++ p.2)
  else (s, base)

/-- The `connectionTimeout` event payload `{url, timeout}`. -/
def connectionTimeoutPayload (o : Options) : JValue :=
  .obj [("url", .str o.url), ("timeout", .num o.connectionTimeout)]

/-- The connection-timeout timer callback: emit `connectionTimeout`; if the
transport is still `CONNECTING`, force-close it and route to
`handleConnectionFailure`.  A one-shot timer can only fire while armed, and
firing consumes it. -/
def connectionTimeoutFire (o : Options) (s : SocketState) : SocketState × List Action :=
  if ¬ s.connectionTimeoutTimer then (s, [])
  else
    let s0 := { s with connectionTimeoutTimer := false }
    let base := [Action.emit ("connectionTimeout") (connectionTimeoutPayload o)]
    if s0.wsPresent ∧ s0.wsReadyState = .CONNECTING then
      let s1 := { s0 with wsReadyState := .CLOSING }
      let p := handleConnectionFailure o s1
      (p.1, base ++ [Action.wsClose] ++ p.2)
    else (s0, base)

/-- One firing of the recurring heartbeat interval timer: build the ping
(an object template is spread with a fresh `time` stamp), send it, and arm
the heartbeat-timeout timer.  (Non-object ping templates pass through
unchanged; spreading an array template into an object is not modelled.) -/
def heartbeatTick (σ : JValue → Bool) (o : Options) (now : ℚ) (s : SocketState) :
    SocketState × List Action :=
  if ¬ s.heartbeatTimer then (s, [])
  else
    let ping : JValue :=
      match o.pingMessage with
      | .obj fields => .obj (setField fields ("time") (.num now))
      | p => p
    let r := send σ s ping
    (startHeartbeatTimeout o r.1, r.2.1)

/-- The heartbeat-timeout timer callback: emit `heartbeatTimeout {time}`,
force-close the transport if present, and hand off to `performReconnect`
when auto-reconnect is enabled.  Firing consumes the one-shot timer. -/
def heartbeatTimeoutFire (o : Options) (now : ℚ) (s : SocketState) :
    SocketState × List Action :=
  if ¬ s.heartbeatTimeoutTimer then (s, [])
  else
    let s0 := { s with heartbeatTimeoutTimer := false }
    let base := [Action.emit ("heartbeatTimeout") (.obj [("time", .num now)])]
    let p1 : SocketState × List Action :=
      if s0.wsPresent then ({ s0 with wsReadyState := .CLOSING }, [Action.wsClose])
      else (s0, [])
    if o.autoReconnect then
      let p2 := performReconnect o p1.1
      (p2.1, base ++ p1.2 ++ p2.2)
    else (p1.1, base ++ p1.2)

/-- The payload of the `error` emission `{type: 'initError', error}`. -/
def initErrorPayload : JValue :=
  .obj [("type", .str ("initError")), ("error", .null)]

/-- `SupaSocket.connect`, with the outcome of `new WebSocket(...)` supplied
by `ctorOk`: clear any pending connection-timeout timer, set state
`CONNECTING`, clear the explicit-close flag; on construction success take
the fresh transport handle and arm the connection-timeout timer when
configured positive; on a constructor throw set state `CLOSED`, emit the
`initError`-tagged `error` event and invoke `performReconnect` when
auto-reconnect is enabled. -/
def connect (o : Options) (ctorOk : Bool) (s : SocketState) : SocketState × List Action :=
  let s0 := { s with connectionTimeoutTimer := false }
  let p1 := setState s0 .CONNECTING
  let s1 := { p1.1 with explicitClose := false }
  if ctorOk then
    let s2 := { s1 with wsPresent := true, wsReadyState := .CONNECTING }
    if 0 < o.connectionTimeout then
      ({ s2 with connectionTimeoutTimer := true }, p1.2)
    else (s2, p1.2)
  else
    let p2 := setState s1 .CLOSED
    let base := p1.2 ++ p2.2 ++ [Action.emit ("error") initErrorPayload]
    if o.autoReconnect then
      let p3 := performReconnect o p2.1
      (p3.1, base ++ p3.2)
    else (p2.1, base)

/-- `SupaSocket.close`: raise the explicit-close flag; with a transport
present, set state `CLOSING`, clear the heartbeat timers and request the
transport close; finally set state `CLOSED`. -/
def closeOp (s : SocketState) : SocketState × List Action :=
  let s0 := { s with explicitClose := true }
  if s0.wsPresent then
    let p1 := setState s0 .CLOSING
    let s1 := { p1.1 with heartbeatTimer := false, heartbeatTimeoutTimer := false,
                          wsReadyState := .CLOSING }
    let p2 := setState s1 .CLOSED
    (p2.1, p1.2 ++ [Action.wsClose] ++ p2.2)
  else
    let p := setState s0 .CLOSED
    (p.1, p.2)

/-- `SupaSocket.reconnect(resetReconnectCount)`: force-close any existing
transport, reset both reconnect counters when requested, clear the
explicit-close flag, and call `connect`. -/
def reconnectOp (o : Options) (resetReconnectCount : Bool) (ctorOk : Bool)
    (s : SocketState) : SocketState × List Action :=
  let p0 : SocketState × List Action :=
    if s.wsPresent then ({ s with wsReadyState := .CLOSING }, [Action.wsClose])
    else (s, [])
  let s1 := if resetReconnectCount then { p0.1 with reconnectCount := 0, currentBackoff := 0 }
            else p0.1
  let s2 := { s1 with explicitClose := false }
  let p3 := connect o ctorOk s2
  (p3.1, p0.2 ++ p3.2)

/-- `SupaSocket.checkConnection`: capture the current state; when it is
`CLOSED`, the close was not explicit and auto-reconnect is enabled, invoke
`performReconnect`; return the captured state. -/
def checkConnection (o : Options) (s : SocketState) : SocketState × List Action × ConnectionState :=
  let state := s.connState
  if state = .CLOSED ∧ ¬ s.explicitClose ∧ o.autoReconnect then
    let p := performReconnect o s
    (p.1, p.2, state)
  else (s, [], state)

/-- `SupaSocket.destroy`: force-close and drop the transport, clear every
timer, set state `CLOSED` and empty the message queue (clearing the event
bus is on the separately modelled `EventBus`). -/
def destroyOp (s : SocketState) : SocketState × List Action :=
  let p0 : SocketState × List Action :=
    if s.wsPresent then
      ({ s with wsReadyState := .CLOSING, wsPresent := false }, [Action.wsClose])
    else (s, [])
  let s1 := { p0.1 with heartbeatTimer := false, heartbeatTimeoutTimer := false,
                        connectionTimeoutTimer := false }
  let p2 := setState s1 .CLOSED
  ({ p2.1 with messageQueue := [] }, p0.2 ++ p2.2)

/-- One engine operation: a public method call, a transport event, or the
firing of an armed timer.  `ctorOk` supplies the outcome of the platform
socket constructor; `now` the clock reading taken by the operation.
(`updateOptions` and the auto-reconnect toggles are outside this step
relation: the configuration `o` is fixed per run, and a URL change merely
delegates to `reconnect(true)`.) -/
inductive Op : Type where
  | connect (ctorOk : Bool) : Op
  | wsOpen : Op
  | wsMessage (raw : JValue) (now : ℚ) : Op
  | wsClose : Op
  | wsError : Op
  | connTimeoutFire : Op
  | hbTick (now : ℚ) : Op
  | hbTimeoutFire (now : ℚ) : Op
  | send (data : JValue) : Op
  | close : Op
  | reconnect (resetReconnectCount : Bool) (ctorOk : Bool) : Op
  | checkConnection : Op
  | destroy : Op

/-- The engine's step relation: dispatch one operation, yielding the next
state and the recorded side effects.  `P` is the platform `JSON.parse`, `σ`
the transport-send outcome oracle. -/
def step (P : String → Option JValue) (σ : JValue → Bool) (o : Options) :
    Op → SocketState → SocketState × List Action
  | .connect ok, s => connect o ok s
  | .wsOpen, s => wsOpen σ o s
  | .wsMessage raw now, s => wsMessage P o raw now s
  | .wsClose, s => wsCloseEv o s
  | .wsError, s => wsErrorEv o s
  | .connTimeoutFire, s => connectionTimeoutFire o s
  | .hbTick now, s => heartbeatTick σ o now s
  | .hbTimeoutFire now, s => heartbeatTimeoutFire o now s
  | .send d, s => let r := send σ s d; (r.1, r.2.1)
  | .close, s => closeOp s
  | .reconnect b ok, s => reconnectOp o b ok s
  | .checkConnection, s => let r := checkConnection o s; (r.1, r.2.1)
  | .destroy, s => destroyOp s

/-- A callback registered on the `EventBus`.  `id` models the function's
reference identity (the `cb !== callback` filter of `off`); `isOnce` marks
the wrapper closure built by `SupaSocket.once`; `throws` says whether the
underlying user callback raises when invoked. -/
structure Listener : Type where
  id : Nat
  isOnce : Bool
  throws : Bool
  deriving DecidableEq

/-- The `EventBus.events` map, as an association list with unique keys. -/
abbrev Bus : Type := List (String × List Listener)

/-- `Map.get` on the events map. -/
def busGet (bus : Bus) (event : String) : Option (List Listener) :=
  match List.find? (fun e => e.1 = event) bus with
  | some e => some e.2
  | none => none

/-- `EventBus.on`: create the event's list if absent, then push. -/
def busOn (bus : Bus) (event : String) (cb : Listener) : Bus :=
  match busGet bus event with
  | some _ => List.map (fun e => if e.1 = event then (e.1, e.2 ++ [cb]) else e) bus
  | none => bus ++ [(event, [cb])]

/-- `EventBus.off(event, callback)` with a callback given: keep the other
callbacks, and delete the event key entirely when none remain. -/
def busOff (bus : Bus) (event : String) (cbId : Nat) : Bus :=
  match busGet bus event with
  | none => bus
  | some callbacks =>
    let filtered := List.filter (fun cb => cb.id ≠ cbId) callbacks
    if filtered.length = 0 then List.filter (fun e => e.1 ≠ event) bus
    else List.map (fun e => if e.1 = event then (e.1, filtered) else e) bus

/-- The effect one listener invocation has on the bus.  A plain listener
leaves it unchanged.  The `once` wrapper first runs the user callback and
only then unsubscribes itself; when the user callback throws, the
unsubscribe line is never reached (the exception is swallowed by `emit`'s
per-callback `try`/`catch`), so the wrapper stays registered. -/
def invokeListener (event : String) (bus : Bus) (l : Listener) : Bus :=
  if l.isOnce && !l.throws then busOff bus event l.id else bus

/-- `emit`'s `callbacks.forEach` loop over the array captured at entry,
threading the bus (which a `once` wrapper mutates mid-loop) and recording
each user-callback invocation by listener id. -/
def emitLoop (event : String) : List Listener → Bus → Bus × List Nat
  | [], bus => (bus, [])
  | l :: ls, bus =>
    let bus1 := invokeListener event bus l
    let rest := emitLoop event ls bus1
    (rest.1, l.id :: rest.2)

/-- `EventBus.emit`: no-op without subscribers, otherwise the `forEach`
loop over the current callback array. -/
def busEmit (bus : Bus) (event : String) : Bus × List Nat :=
  match busGet bus event with
  | none => (bus, [])
  | some callbacks => emitLoop event callbacks bus

/-- `SupaSocket.once`: register the self-unsubscribing wrapper. -/
def busOnce (bus : Bus) (event : String) (id : Nat) (userThrows : Bool) : Bus :=
  busOn bus event { id := id, isOnce := true, throws := userThrows }

/-- An observer registered with `ConnectionManager.onStatusChange`; `id`
models reference identity and `throws` whether the callback raises. -/
structure ObserverCallback : Type where
  id : Nat
  throws : Bool
  deriving DecidableEq

/-- The `ConnectionManager` class: current state plus the registered
status-change observers in registration order. -/
structure ConnectionManager : Type where
  state : ConnectionState
  statusChangeCallbacks : List ObserverCallback

/-- One observer invocation performed by the `state` setter: who was called,
with which `(newState, oldState)` pair, and whether it threw (the setter's
`try`/`catch` logs and swallows the exception). -/
structure ObserverCall : Type where
  cbId : Nat
  newState : ConnectionState
  oldState : ConnectionState
  threw : Bool
  deriving DecidableEq

/-- The `ConnectionManager.state` setter: a no-op on an equal state,
otherwise swap and run every observer with `(newState, oldState)` under a
per-observer `try`/`catch`, so a throwing observer is recorded and the loop
continues; the setter itself always returns normally. -/
def cmSet (cm : ConnectionManager) (newState : ConnectionState) :
    ConnectionManager × List ObserverCall :=
  if cm.state = newState then (cm, [])
  else
    ({ cm with state := newState },
     List.map (fun cb => { cbId := cb.id, newState := newState,
                           oldState := cm.state, threw := cb.throws })
       cm.statusChangeCallbacks)

/-- The engine's state as freshly constructed (before the constructor's
`connect()` call): no transport, both reconnect counters zero, no timers,
state `CLOSED`, empty queue, explicit-close unset. -/
def initialState : SocketState where
  wsPresent := false
  wsReadyState := .CLOSED
  reconnectCount := 0
  currentBackoff := 0
  heartbeatTimer := false
  heartbeatTimeoutTimer := false
  connectionTimeoutTimer := false
  connState := .CLOSED
  messageQueue := []
  lastMessageTime := 0
  explicitClose := false

/-- The names of the events emitted in an action list, in order. -/
def emittedEvents (acts : List Action) : List String :=
  acts.filterMap (fun a => match a with | .emit e _ => some e | _ => none)

/-- The delays of the `connect` calls scheduled in an action list. -/
def scheduledDelays (acts : List Action) : List ℚ :=
  acts.filterMap (fun a => match a with | .scheduleConnect d => some d | _ => none)

end SupaSocket

namespace SupaSocket

/-! ## Basic lemmas about the state setter and the reconnection routine -/

theorem setState_fst (s : SocketState) (n : ConnectionState) :
    (setState s n).1 = { s with connState := n } := by
  unfold setState
  split
  · next h => rw [← h]
  · rfl

theorem setState_snd (s : SocketState) (n : ConnectionState) :
    (setState s n).2 =
      if s.connState = n then []
      else [Action.emit ("statusChange") (statusChangePayload n s.connState)] := by
  unfold setState
  split <;> simp [*]

theorem performReconnect_exhausted (o : Options) (s : SocketState)
    (h : effectiveReconnectLimit o ≤ s.reconnectCount) :
    performReconnect o s =
      (s, [Action.emit ("reconnectFailed")
            (.obj [("attempts", .num (s.reconnectCount : ℚ)),
                   ("limit", .num (o.reconnectLimit : ℚ))])]) := by
  unfold performReconnect
  rw [if_pos h]

theorem performReconnect_fst_of_lt (o : Options) (s : SocketState)
    (h : s.reconnectCount < effectiveReconnectLimit o) :
    (performReconnect o s).1 =
      { s with connState := .RECONNECTING,
               reconnectCount := s.reconnectCount + 1,
               currentBackoff := s.currentBackoff + 1 } := by
  unfold performReconnect
  rw [if_neg (not_le.mpr h)]
  simp only [setState_fst]

theorem performReconnect_snd_of_lt (o : Options) (s : SocketState)
    (h : s.reconnectCount < effectiveReconnectLimit o) :
    (performReconnect o s).2 =
      (if s.connState = .RECONNECTING then []
       else [Action.emit ("statusChange") (statusChangePayload .RECONNECTING s.connState)]) ++
      [Action.emit ("reconnecting")
         (.obj [("attempt", .num ((s.reconnectCount + 1 : ℕ) : ℚ)),
                ("limit", .num (o.reconnectLimit : ℚ)),
                ("delay", .num (computeDelay o s.currentBackoff))]),
       Action.scheduleConnect (computeDelay o s.currentBackoff)] := by
  unfold performReconnect
  rw [if_neg (not_le.mpr h)]
  simp only [setState_fst, setState_snd]

end SupaSocket
namespace SupaSocket

/-! ## C1: exponential backoff delays -/

theorem scheduledDelays_performReconnect_of_lt (o : Options) (s : SocketState)
    (h : s.reconnectCount < effectiveReconnectLimit o) :
    scheduledDelays (performReconnect o s).2 = [computeDelay o s.currentBackoff] := by
  rw [performReconnect_snd_of_lt o s h]
  split <;> simp [scheduledDelays]

/-- Options exhibiting the C1 counterexample: a base interval larger than the
delay cap. -/
def oC1 : Options :=
  { defaultOptions ("ws://example") with reconnectInterval := 10000, maxReconnectDelay := 5000 }

/-- C1 counterexample: with `reconnectInterval = 10000` and
`maxReconnectDelay = 5000`, the first scheduled delay is `10000` — it
exceeds `maxReconnectDelay` (the first backoff step skips the `min` with the
cap) — and the second scheduled delay is `5000 < 10000`, so the delay
sequence is not monotonically non-decreasing and does not stay below the
cap, contrary to the claim as stated. -/
theorem C1_backoff_cex :
    scheduledDelays (performReconnect oC1 initialState).2 = [10000] ∧
    scheduledDelays (performReconnect oC1 (performReconnect oC1 initialState).1).2 = [5000] ∧
    oC1.maxReconnectDelay = 5000 ∧ ¬ ((10000 : ℚ) ≤ oC1.maxReconnectDelay) ∧
    ((5000 : ℚ) < 10000) := by
  refine ⟨by rfl, ?_, by rfl, by decide, by decide⟩
  simp [performReconnect, setState, computeDelay, scheduledDelays, effectiveReconnectLimit,
        initialState, oC1, defaultOptions, min_def]
  norm_num

/-- C1 (amended): provided `0 < reconnectInterval ≤ maxReconnectDelay`, the
delay computed at backoff exponent `e` equals `reconnectInterval` when
`e = 0` and `min(maxReconnectDelay, reconnectInterval * 1.5 ^ e)` otherwise;
each non-exhausted invocation of the reconnection routine schedules exactly
the delay computed from the pre-increment exponent and increments the
exponent afterwards; and the delay sequence is monotonically non-decreasing,
never exceeds `maxReconnectDelay`, and saturates at `maxReconnectDelay`.
(The claim as stated omits the hypothesis, without which the first delay can
exceed the cap and the sequence can decrease, see the counterexample.) -/
theorem C1_backoff_amended (o : Options) (h1 : 0 < o.reconnectInterval)
    (h2 : o.reconnectInterval ≤ o.maxReconnectDelay) :
    computeDelay o 0 = o.reconnectInterval ∧
    (∀ e : ℕ, 0 < e →
        computeDelay o e = min o.maxReconnectDelay (o.reconnectInterval * (3 / 2) ^ e)) ∧
    (∀ s : SocketState, s.reconnectCount < effectiveReconnectLimit o →
        (performReconnect o s).1.currentBackoff = s.currentBackoff + 1 ∧
        scheduledDelays (performReconnect o s).2 = [computeDelay o s.currentBackoff]) ∧
    (∀ e : ℕ, computeDelay o e ≤ computeDelay o (e + 1)) ∧
    (∀ e : ℕ, computeDelay o e ≤ o.maxReconnectDelay) ∧
    (∃ N : ℕ, ∀ e : ℕ, N ≤ e → computeDelay o e = o.maxReconnectDelay) := by
  have hI : o.reconnectInterval ≠ 0 := ne_of_gt h1
  have hM0 : 0 < o.maxReconnectDelay := lt_of_lt_of_le h1 h2
  have hM : o.maxReconnectDelay ≠ 0 := ne_of_gt hM0
  have hzero : computeDelay o 0 = o.reconnectInterval := by simp [computeDelay, hI]
  have hpos : ∀ e : ℕ, 0 < e →
      computeDelay o e = min o.maxReconnectDelay (o.reconnectInterval * (3 / 2) ^ e) := by
    intro e he
    simp [computeDelay, hI, hM, he]
  refine ⟨hzero, hpos, ?_, ?_, ?_, ?_⟩
  · intro s hs
    refine ⟨?_, scheduledDelays_performReconnect_of_lt o s hs⟩
    rw [performReconnect_fst_of_lt o s hs]
  · intro e
    match e with
    | 0 =>
      rw [hzero, hpos 1 (by omega)]
      refine le_min h2 ?_
      nlinarith
    | e + 1 =>
      rw [hpos (e + 1) (by omega), hpos (e + 2) (by omega)]
      refine min_le_min le_rfl ?_
      have hp : ((3 : ℚ) / 2) ^ (e + 1) ≤ ((3 : ℚ) / 2) ^ (e + 2) :=
        pow_le_pow_right₀ (by norm_num) (by omega)
      nlinarith
  · intro e
    match e with
    | 0 => rw [hzero]; exact h2
    | e + 1 => rw [hpos (e + 1) (by omega)]; exact min_le_left _ _
  · obtain ⟨n, hn⟩ :=
      pow_unbounded_of_one_lt (o.maxReconnectDelay / o.reconnectInterval)
        (by norm_num : (1 : ℚ) < 3 / 2)
    refine ⟨n + 1, fun e he => ?_⟩
    rw [hpos e (by omega)]
    have hp : ((3 : ℚ) / 2) ^ n ≤ ((3 : ℚ) / 2) ^ e :=
      pow_le_pow_right₀ (by norm_num) (by omega)
    have hlt : o.maxReconnectDelay < o.reconnectInterval * (3 / 2) ^ e := by
      have h3 := (div_lt_iff₀ h1).mp (lt_of_lt_of_le hn hp)
      nlinarith
    exact min_eq_left hlt.le

/-- C1 witness: the amended theorem applied at the default options
(`reconnectInterval = 5000 ≤ 30000 = maxReconnectDelay`). -/
theorem C1_backoff_witness :
    (0 : ℚ) < (defaultOptions ("ws://example")).reconnectInterval ∧
    (defaultOptions ("ws://example")).reconnectInterval ≤
      (defaultOptions ("ws://example")).maxReconnectDelay ∧
    computeDelay (defaultOptions ("ws://example")) 0 =
      (defaultOptions ("ws://example")).reconnectInterval :=
  ⟨by decide, by decide,
   (C1_backoff_amended (defaultOptions ("ws://example")) (by decide) (by decide)).1⟩

end SupaSocket
namespace SupaSocket

/-! ## C2 and C10: the attempt ceiling and the exhaustion case -/

/-- Options with `reconnectLimit = 0`: the guard `reconnectLimit || 5` then
enforces the fallback ceiling `5`, not `0`. -/
def oZero : Options := { defaultOptions ("ws://example") with reconnectLimit := 0 }

/-- The scenario options of C2:
`reconnectLimit = 2`, `reconnectInterval = 1000`, `maxReconnectDelay = 5000`. -/
def oScenario : Options :=
  { defaultOptions ("ws://example") with
      reconnectLimit := 2, reconnectInterval := 1000, maxReconnectDelay := 5000 }

/-- C2 counterexample: with `reconnectLimit = 0` and `attemptCount = 0` the
claim's condition `attemptCount >= reconnectLimit` holds, yet the routine
does not publish `reconnectFailed` — it publishes `statusChange` and
`reconnecting` and schedules a connect attempt after `5000` ms, because the
code compares against `reconnectLimit || 5`, not `reconnectLimit`. -/
theorem C2_reconnectFailed_cex :
    oZero.reconnectLimit ≤ initialState.reconnectCount ∧
    emittedEvents (performReconnect oZero initialState).2 = ["statusChange", "reconnecting"] ∧
    scheduledDelays (performReconnect oZero initialState).2 = [5000] :=
  ⟨by decide, by rfl, by rfl⟩

/-- C2 (amended): provided `reconnectLimit ≥ 1` (so that the falsy-default
`reconnectLimit || 5` coincides with `reconnectLimit`), every invocation
with `attemptCount ≥ reconnectLimit` publishes exactly `reconnectFailed`
with `{attempts, limit}`, schedules no connect attempt and leaves the state
unchanged; and the concrete scenario holds as claimed: with
`reconnectLimit = 2, reconnectInterval = 1000, maxReconnectDelay = 5000`,
three consecutive invocations schedule delays `1000` then `1500`, and the
third publishes `reconnectFailed` with `attempts: 2, limit: 2` and
schedules nothing. -/
theorem C2_reconnectFailed_amended :
    (∀ (o : Options) (s : SocketState), 1 ≤ o.reconnectLimit →
        o.reconnectLimit ≤ s.reconnectCount →
        (performReconnect o s).2 =
          [Action.emit ("reconnectFailed")
            (.obj [("attempts", .num (s.reconnectCount : ℚ)),
                   ("limit", .num (o.reconnectLimit : ℚ))])] ∧
        scheduledDelays (performReconnect o s).2 = [] ∧
        (performReconnect o s).1 = s) ∧
    (scheduledDelays (performReconnect oScenario initialState).2 = [1000] ∧
     scheduledDelays
       (performReconnect oScenario (performReconnect oScenario initialState).1).2 = [1500] ∧
     (performReconnect oScenario
        (performReconnect oScenario (performReconnect oScenario initialState).1).1).2 =
       [Action.emit ("reconnectFailed")
          (.obj [("attempts", .num 2), ("limit", .num 2)])] ∧
     scheduledDelays
       (performReconnect oScenario
          (performReconnect oScenario (performReconnect oScenario initialState).1).1).2 = []) := by
  constructor
  · intro o s h1 h2
    have he : effectiveReconnectLimit o ≤ s.reconnectCount := by
      unfold effectiveReconnectLimit
      rw [if_neg (by omega)]
      exact h2
    rw [performReconnect_exhausted o s he]
    exact ⟨rfl, by simp [scheduledDelays], rfl⟩
  · refine ⟨by rfl, ?_, by rfl, by rfl⟩
    simp [performReconnect, setState, computeDelay, scheduledDelays, effectiveReconnectLimit,
          initialState, oScenario, defaultOptions, min_def]
    norm_num

/-- C2 witness: the general clause of the amended theorem applied at the
scenario options and an exhausted context (`attemptCount = 2`). -/
theorem C2_reconnectFailed_witness :
    1 ≤ oScenario.reconnectLimit ∧
    oScenario.reconnectLimit ≤ ({ initialState with reconnectCount := 2 } : SocketState).reconnectCount ∧
    (performReconnect oScenario { initialState with reconnectCount := 2 }).2 =
      [Action.emit ("reconnectFailed")
        (.obj [("attempts", .num ((2 : ℕ) : ℚ)), ("limit", .num ((2 : ℕ) : ℚ))])] :=
  ⟨by decide, by decide,
   (C2_reconnectFailed_amended.1 oScenario { initialState with reconnectCount := 2 }
      (by decide) (by decide)).1⟩

/-- C10 counterexample: with `reconnectLimit = 0` and `attemptCount = 0` the
claim's exhaustion condition `attemptCount >= reconnectLimit` holds, yet the
invocation mutates the engine: the session state moves from `CLOSED` to
`RECONNECTING` and both counters are incremented to `1` (the code's
exhaustion guard uses `reconnectLimit || 5`). -/
theorem C10_exhaustion_cex :
    oZero.reconnectLimit ≤ initialState.reconnectCount ∧
    initialState.connState = .CLOSED ∧
    (performReconnect oZero initialState).1.connState = .RECONNECTING ∧
    (performReconnect oZero initialState).1.reconnectCount = 1 ∧
    (performReconnect oZero initialState).1.currentBackoff = 1 :=
  ⟨by decide, by rfl, by rfl, by rfl, by rfl⟩

/-- C10 (amended): when the reconnection routine is invoked with
`attemptCount` at or above the enforced ceiling `reconnectLimit || 5`, it
publishes exactly `reconnectFailed` and returns before any mutation — the
whole engine state (session state, counters, queue, timers, flags) is
returned unchanged — so a repeated invocation publishes the same
`reconnectFailed` with the same `attempts` value. -/
theorem C10_exhaustion_amended (o : Options) (s : SocketState)
    (h : effectiveReconnectLimit o ≤ s.reconnectCount) :
    (performReconnect o s).1 = s ∧
    (performReconnect o s).2 =
      [Action.emit ("reconnectFailed")
        (.obj [("attempts", .num (s.reconnectCount : ℚ)),
               ("limit", .num (o.reconnectLimit : ℚ))])] ∧
    (performReconnect o (performReconnect o s).1).2 = (performReconnect o s).2 := by
  have hx := performReconnect_exhausted o s h
  refine ⟨by rw [hx], by rw [hx], ?_⟩
  have h1 : (performReconnect o s).1 = s := by rw [hx]
  rw [h1]

/-- C10 witness: the amended theorem applied at the default options and an
exhausted context (`attemptCount = 5`). -/
theorem C10_exhaustion_witness :
    effectiveReconnectLimit (defaultOptions ("ws://example")) ≤
      ({ initialState with reconnectCount := 5 } : SocketState).reconnectCount ∧
    (performReconnect (defaultOptions ("ws://example"))
        { initialState with reconnectCount := 5 }).1 =
      { initialState with reconnectCount := 5 } :=
  ⟨by decide,
   (C10_exhaustion_amended (defaultOptions ("ws://example"))
      { initialState with reconnectCount := 5 } (by decide)).1⟩

end SupaSocket
namespace SupaSocket

/-! ## C9: checkConnection -/

/-- C9 counterexample: from a fresh closed engine with auto-reconnect on,
`checkConnection` triggers the reconnection path and returns `CLOSED` — the
state captured on entry — while the session state at the moment the call
returns is `RECONNECTING`, so the call does not return "the engine's current
session state at the time the call returns". -/
theorem C9_checkConnection_cex :
    (checkConnection (defaultOptions ("ws://example")) initialState).2.2 =
      ConnectionState.CLOSED ∧
    (checkConnection (defaultOptions ("ws://example")) initialState).1.connState =
      ConnectionState.RECONNECTING ∧
    ConnectionState.CLOSED ≠ ConnectionState.RECONNECTING :=
  ⟨by rfl, by rfl, by decide⟩

/-- C9 (amended): `checkConnection` invokes the reconnection routine exactly
when the state is `CLOSED`, the last close was not explicit and
auto-reconnect is enabled, and in all cases returns the session state
observed on entry (which, when a non-exhausted reconnection was triggered,
differs from the state at the time the call returns). -/
theorem C9_checkConnection_amended (o : Options) (s : SocketState) :
    ((s.connState = .CLOSED ∧ ¬ s.explicitClose ∧ o.autoReconnect) →
        checkConnection o s =
          ((performReconnect o s).1, (performReconnect o s).2, s.connState)) ∧
    (¬ (s.connState = .CLOSED ∧ ¬ s.explicitClose ∧ o.autoReconnect) →
        checkConnection o s = (s, [], s.connState)) ∧
    (checkConnection o s).2.2 = s.connState := by
  simp only [checkConnection]
  refine ⟨fun h => by rw [if_pos h], fun h => by rw [if_neg h], ?_⟩
  split <;> rfl

/-- C9 witness: the amended theorem applied at the default options and the
fresh closed state, whose guard condition holds. -/
theorem C9_checkConnection_witness :
    (initialState.connState = .CLOSED ∧ ¬ initialState.explicitClose ∧
       (defaultOptions ("ws://example")).autoReconnect) ∧
    checkConnection (defaultOptions ("ws://example")) initialState =
      ((performReconnect (defaultOptions ("ws://example")) initialState).1,
       (performReconnect (defaultOptions ("ws://example")) initialState).2,
       initialState.connState) :=
  ⟨by decide, (C9_checkConnection_amended (defaultOptions ("ws://example")) initialState).1
     (by decide)⟩

/-! ## C3: send -/

/-- C3: `send` behaves in exactly one of three ways, in the code's if-else
precedence.  Transport open: the payload is prepared (strings and binary
pass through unchanged, everything else is JSON-encoded) and transmitted,
returning `true` on success and `false` (with a `sendError`-tagged `error`
emission) when the transport send throws, the queue untouched either way.
Transport not open and state `CONNECTING` or `RECONNECTING`: the payload is
appended to the queue and `send` returns `true`.  Transport not open and
state `CLOSED` or `CLOSING`: the `sendError`-tagged `error` event is
published, `send` returns `false`, and the queue is unchanged. -/
theorem C3_send (σ : JValue → Bool) (s : SocketState) (data : JValue) :
    (s.wsPresent ∧ s.wsReadyState = .OPEN →
        (send σ s data).2.2 = σ data ∧
        (send σ s data).1 = s ∧
        (σ data = true → (send σ s data).2.1 = [Action.wsSend (prepareMessage data)]) ∧
        (σ data = false →
          (send σ s data).2.1 = [Action.emit ("error") (sendErrorPayload data)])) ∧
    (¬ (s.wsPresent ∧ s.wsReadyState = .OPEN) →
        (s.connState = .CONNECTING ∨ s.connState = .RECONNECTING) →
        send σ s data = ({ s with messageQueue := s.messageQueue ++ [data] }, [], true)) ∧
    (¬ (s.wsPresent ∧ s.wsReadyState = .OPEN) →
        (s.connState = .CLOSED ∨ s.connState = .CLOSING) →
        send σ s data = (s, [Action.emit ("error") (sendErrorPayload data)], false)) ∧
    prepareMessage data =
      (match data with
       | .str t => .str t
       | .binary b => .binary b
       | d => .str d.stringify) := by
  refine ⟨?_, ?_, ?_, ?_⟩
  · intro h
    unfold send
    rw [if_pos h]
    cases hb : σ data <;> simp [hb]
  · intro h h2
    unfold send
    rw [if_neg h, if_pos h2]
  · intro h h2
    have hne : ¬ (s.connState = .CONNECTING ∨ s.connState = .RECONNECTING) := by
      rcases h2 with h2 | h2 <;> simp [h2]
    unfold send
    rw [if_neg h, if_neg hne]
  · cases data <;> rfl

/-- The scenario payload `{type: "chat", msg: "hi"}`. -/
def chatMsg : JValue := .obj [("type", .str ("chat")), ("msg", .str ("hi"))]

/-- C3 witness: the closed-state clause applied to the scenario — sending
`{type:"chat", msg:"hi"}` on a fresh closed engine publishes the
`sendError`-tagged `error` event, reports failure, and leaves the queue
unchanged. -/
theorem C3_send_witness :
    ¬ (initialState.wsPresent ∧ initialState.wsReadyState = WsReadyState.OPEN) ∧
    (initialState.connState = .CLOSED ∨ initialState.connState = .CLOSING) ∧
    send (fun _ => true) initialState chatMsg =
      (initialState, [Action.emit ("error") (sendErrorPayload chatMsg)], false) :=
  ⟨by decide, by decide,
   (C3_send (fun _ => true) initialState chatMsg).2.2.1 (by decide) (by decide)⟩

/-! ## C6: the Session State setter -/

/-- C6: `set(newState)` on the `ConnectionManager` is a no-op notifying no
observer when `newState` equals the current state; otherwise it swaps the
state and invokes every registered observer exactly once, in registration
order, with the pair `(newState, oldState)` — including the observers after
a throwing one, whose exception is recorded, swallowed by the setter's
per-observer `try`/`catch`, and never reaches the caller (the setter is a
total function). -/
theorem C6_setState (cm : ConnectionManager) (n : ConnectionState) :
    (cm.state = n → cmSet cm n = (cm, [])) ∧
    (cm.state ≠ n →
        (cmSet cm n).1.state = n ∧
        (cmSet cm n).1.statusChangeCallbacks = cm.statusChangeCallbacks ∧
        (cmSet cm n).2 =
          List.map (fun cb => { cbId := cb.id, newState := n, oldState := cm.state,
                                threw := cb.throws }) cm.statusChangeCallbacks) := by
  unfold cmSet
  constructor
  · intro h; rw [if_pos h]
  · intro h; rw [if_neg h]; exact ⟨rfl, rfl, rfl⟩

/-- C6 witness: a manager at `CLOSED` with two observers, the first of which
throws, moved to `OPEN`: both observers are called in order with
`(OPEN, CLOSED)`; and a same-state `set(CLOSED)` is a no-op. -/
theorem C6_setState_witness :
    ((⟨.CLOSED, [⟨1, true⟩, ⟨2, false⟩]⟩ : ConnectionManager).state ≠ .OPEN) ∧
    (cmSet ⟨.CLOSED, [⟨1, true⟩, ⟨2, false⟩]⟩ .OPEN).2 =
      [⟨1, .OPEN, .CLOSED, true⟩, ⟨2, .OPEN, .CLOSED, false⟩] ∧
    ((⟨.CLOSED, [⟨1, true⟩, ⟨2, false⟩]⟩ : ConnectionManager).state = .CLOSED) ∧
    cmSet ⟨.CLOSED, [⟨1, true⟩, ⟨2, false⟩]⟩ .CLOSED =
      (⟨.CLOSED, [⟨1, true⟩, ⟨2, false⟩]⟩, []) :=
  ⟨by decide,
   ((C6_setState ⟨.CLOSED, [⟨1, true⟩, ⟨2, false⟩]⟩ .OPEN).2 (by decide)).2.2,
   by decide,
   (C6_setState ⟨.CLOSED, [⟨1, true⟩, ⟨2, false⟩]⟩ .CLOSED).1 (by decide)⟩

end SupaSocket
namespace SupaSocket

/-! ## C5: queue drain on open -/

theorem send_open (σ : JValue → Bool) (s : SocketState) (data : JValue)
    (h : s.wsPresent ∧ s.wsReadyState = .OPEN) :
    send σ s data =
      (s, (if σ data then [Action.wsSend (prepareMessage data)]
           else [Action.emit ("error") (sendErrorPayload data)]), σ data) := by
  unfold send
  rw [if_pos h]
  cases hb : σ data <;> simp [hb]

theorem drainSend_open (σ : JValue → Bool) (q : List JValue) (s : SocketState)
    (h1 : s.wsPresent = true) (h2 : s.wsReadyState = .OPEN) :
    drainSend σ q s =
      (s, q.map (fun m =>
        if σ m then Action.wsSend (prepareMessage m)
        else Action.emit ("error") (sendErrorPayload m))) := by
  induction q with
  | nil => rfl
  | cons m ms ih =>
    simp only [drainSend, send_open σ s m ⟨by simp [h1], h2⟩, ih, List.map_cons]
    split <;> rfl

theorem processMessageQueue_open (σ : JValue → Bool) (s : SocketState)
    (h1 : s.wsPresent = true) (h2 : s.wsReadyState = .OPEN) :
    processMessageQueue σ s =
      ({ s with messageQueue := [] },
       s.messageQueue.map (fun m =>
         if σ m then Action.wsSend (prepareMessage m)
         else Action.emit ("error") (sendErrorPayload m))) := by
  unfold processMessageQueue
  split
  · rw [drainSend_open σ s.messageQueue s h1 h2]
  · next hlen =>
    have he : s.messageQueue = [] := by
      cases hq : s.messageQueue with
      | nil => rfl
      | cons a l => rw [hq] at hlen; simp at hlen
    cases s
    simp_all

/-- C5: on the transport-open event, the messages queued while connecting
are transmitted in original FIFO insertion order, the queue is emptied
(so the drain happens exactly once per transition into `Open` — a second
open event finds an empty queue and sends nothing), and within the single
open event the recorded effects are, in order: the `statusChange` of the
state swap, the queue drain, the heartbeat start, and only then the `open`
publish. -/
theorem C5_open_ordering (σ : JValue → Bool) (o : Options) (s : SocketState)
    (h : s.wsPresent = true) :
    (wsOpen σ o s).1.messageQueue = [] ∧
    (wsOpen σ o s).2 =
      (if s.connState = .OPEN then []
       else [Action.emit ("statusChange") (statusChangePayload .OPEN s.connState)]) ++
      s.messageQueue.map (fun m =>
        if σ m then Action.wsSend (prepareMessage m)
        else Action.emit ("error") (sendErrorPayload m)) ++
      (if o.heartbeatInterval ≤ 0 then [] else [Action.heartbeatStarted]) ++
      [Action.emit ("open") .null] := by
  unfold wsOpen
  simp only [setState_fst, setState_snd]
  rw [processMessageQueue_open σ _ (by simp [h]) (by simp)]
  unfold startHeartbeat
  split <;> simp

/-- A state in mid-connect with two queued messages, for the C5 witness. -/
def sQueued : SocketState :=
  { initialState with wsPresent := true, wsReadyState := .CONNECTING,
                      connState := .CONNECTING,
                      messageQueue := [.str ("a"), .str ("b")] }

/-- C5 witness: the open handler on a connecting engine with queued
messages `"a", "b"` sends them in order, between the `statusChange` and the
heartbeat start, and publishes `open` last; the queue ends empty. -/
theorem C5_open_ordering_witness :
    sQueued.wsPresent = true ∧
    (wsOpen (fun _ => true) (defaultOptions ("ws://example")) sQueued).1.messageQueue = [] ∧
    (wsOpen (fun _ => true) (defaultOptions ("ws://example")) sQueued).2 =
      [Action.emit ("statusChange") (statusChangePayload .OPEN .CONNECTING),
       Action.wsSend (.str ("a")), Action.wsSend (.str ("b")),
       Action.heartbeatStarted, Action.emit ("open") .null] :=
  ⟨rfl,
   (C5_open_ordering (fun _ => true) (defaultOptions ("ws://example")) sQueued rfl).1,
   by
     have h := (C5_open_ordering (fun _ => true) (defaultOptions ("ws://example")) sQueued rfl).2
     simpa [sQueued, initialState, prepareMessage, defaultOptions] using h⟩

end SupaSocket
namespace SupaSocket

/-! ## C4: pong matching -/

/-- The spec's pong-match rule, read literally from its words: "the inbound
payload is a match when every key present in the template has an equal value
in the payload (extra keys in the payload are ignored)".  Kept separate from
the source-derived `matchesTemplate` for comparison. -/
def specTemplateMatch (fields : List (String × JValue)) (payload : JValue) : Bool :=
  fields.all (fun kv =>
    match getProp payload kv.1 with
    | some v => strictEq v kv.2
    | none => false)

theorem matchesTemplate_not_null (fields : List (String × JValue)) (d : JValue)
    (hd : d ≠ JValue.null) :
    matchesTemplate fields d = .ok (specTemplateMatch fields d) := by
  induction fields with
  | nil => rfl
  | cons kv rest ih =>
    obtain ⟨k, v⟩ := kv
    have hp : propAccess d k = .ok (getProp d k) := by
      cases d <;> first | rfl | exact absurd rfl hd
    unfold matchesTemplate
    rw [hp]
    cases hg : getProp d k with
    | none => simp [specTemplateMatch, hg]
    | some dv =>
      cases hse : strictEq dv v with
      | false => simp [specTemplateMatch, hg, hse]
      | true => simp [specTemplateMatch, hg, hse, ih, List.all_cons]

theorem isPongMessage_not_str (P : String → Option JValue) (o : Options) (data : JValue)
    (ht : truthy data = true) (hns : ∀ u, data ≠ JValue.str u) :
    isPongMessage P o data =
      (if truthy o.pongMessage && typeofObject o.pongMessage then
         matchesTemplate (ownEntries o.pongMessage) data
       else
         .ok (truthy data && typeofObject data &&
              (match getProp data ("type") with
               | some tv => strictEq tv (.str ("pong"))
               | none => false))) := by
  unfold isPongMessage
  rw [if_neg (by simp [ht])]
  cases data with
  | str u => exact absurd rfl (hns u)
  | null => rfl
  | bool b => rfl
  | num q => rfl
  | arr xs => rfl
  | obj fs => rfl
  | binary b => rfl

theorem isPongMessage_str (P : String → Option JValue) (o : Options) (t : String)
    (ht : truthy (JValue.str t) = true) :
    isPongMessage P o (.str t) =
      (match P t with
       | none => .ok false
       | some d =>
         if truthy o.pongMessage && typeofObject o.pongMessage then
           matchesTemplate (ownEntries o.pongMessage) d
         else
           .ok (truthy d && typeofObject d &&
                (match getProp d ("type") with
                 | some tv => strictEq tv (.str ("pong"))
                 | none => false))) := by
  unfold isPongMessage
  rw [if_neg (by simp [ht])]

theorem isPongMessage_str_some (P : String → Option JValue) (o : Options) (t : String)
    (d : JValue) (ht : truthy (JValue.str t) = true) (hP : P t = some d) :
    isPongMessage P o (.str t) =
      (if truthy o.pongMessage && typeofObject o.pongMessage then
         matchesTemplate (ownEntries o.pongMessage) d
       else
         .ok (truthy d && typeofObject d &&
              (match getProp d ("type") with
               | some tv => strictEq tv (.str ("pong"))
               | none => false))) := by
  rw [isPongMessage_str P o t ht, hP]

/-- Options with an empty structured pong template, for the C4
counterexample. -/
def oPongEmpty : Options := { defaultOptions ("ws://example") with pongMessage := .obj [] }

/-- C4 counterexample: with the (structured, truthy) empty template `{}`
configured, the spec's rule — every key present in the template has an equal
value in the payload — holds vacuously of the payload `null`, yet
`isPongMessage` reports no match (the `if (!data) return false` guard fires
first), so the claimed "if and only if" fails. -/
theorem C4_pong_cex :
    truthy oPongEmpty.pongMessage = true ∧
    typeofObject oPongEmpty.pongMessage = true ∧
    specTemplateMatch (ownEntries oPongEmpty.pongMessage) JValue.null = true ∧
    isPongMessage (fun _ => none) oPongEmpty JValue.null = .ok false :=
  ⟨by rfl, by rfl, by rfl, by rfl⟩

/-- C4 (amended): falsy payloads and unparseable strings never match.  With
a truthy structured template configured, a truthy payload (its JSON parse,
for string payloads) matches if and only if every key present in the
template has a strictly-equal value in it, extra payload keys ignored —
except that reading a template key off the parsed payload `null` raises a
`TypeError` that the message handler surfaces as a `messageError` `error`
event.  With no structured template, a payload matches if and only if its
effective value is a truthy object whose `type` field equals `'pong'`.
Every payload the engine recognises as a pong disarms the pending
heartbeat-timeout timer and triggers neither the generic `message` publish
nor the dynamic type-named publish. -/
theorem C4_pong_amended (P : String → Option JValue) (o : Options) :
    (∀ data, truthy data = false → isPongMessage P o data = .ok false) ∧
    (∀ t, truthy (JValue.str t) = true → P t = none →
        isPongMessage P o (.str t) = .ok false) ∧
    (∀ tf, o.pongMessage = .obj tf →
        (∀ data, truthy data = true → (∀ u, data ≠ JValue.str u) →
            isPongMessage P o data = .ok (specTemplateMatch tf data)) ∧
        (∀ t d, truthy (JValue.str t) = true → P t = some d → d ≠ JValue.null →
            isPongMessage P o (.str t) = .ok (specTemplateMatch tf d)) ∧
        (∀ t kv rest, tf = kv :: rest → truthy (JValue.str t) = true →
            P t = some JValue.null → isPongMessage P o (.str t) = .error ())) ∧
    (truthy o.pongMessage = false ∨ typeofObject o.pongMessage = false →
        (∀ data, truthy data = true → (∀ u, data ≠ JValue.str u) →
            (isPongMessage P o data = .ok true ↔
              typeofObject data = true ∧ getProp data ("type") = some (.str ("pong")))) ∧
        (∀ t d, truthy (JValue.str t) = true → P t = some d →
            (isPongMessage P o (.str t) = .ok true ↔
              truthy d = true ∧ typeofObject d = true ∧
              getProp d ("type") = some (.str ("pong"))))) ∧
    (∀ raw now s, isPongMessage P o (handlerData P o raw) = .ok true →
        wsMessage P o raw now s =
          ({ s with lastMessageTime := now, heartbeatTimeoutTimer := false }, [])) := by
  have hTemplateCond : ∀ tf : List (String × JValue),
      o.pongMessage = .obj tf →
      (truthy o.pongMessage && typeofObject o.pongMessage) = true := by
    intro tf htf; rw [htf]; rfl
  refine ⟨?_, ?_, ?_, ?_, ?_⟩
  · intro data h
    unfold isPongMessage
    rw [if_pos (by simp [h])]
  · intro t ht hP
    rw [isPongMessage_str P o t ht, hP]
  · intro tf htf
    refine ⟨?_, ?_, ?_⟩
    · intro data ht hns
      rw [isPongMessage_not_str P o data ht hns, if_pos (hTemplateCond tf htf), htf]
      have hd : data ≠ JValue.null := by
        intro h; rw [h] at ht; exact absurd ht (by decide)
      exact matchesTemplate_not_null tf data hd
    · intro t d ht hP hd
      rw [isPongMessage_str P o t ht, hP]
      simp only [if_pos (hTemplateCond tf htf), htf]
      exact matchesTemplate_not_null tf d hd
    · intro t kv rest htfeq ht hP
      rw [isPongMessage_str P o t ht, hP]
      simp only [if_pos (hTemplateCond tf htf), htf, htfeq]
      obtain ⟨k, v⟩ := kv
      rfl
  · intro hnotmpl
    have hcond : (truthy o.pongMessage && typeofObject o.pongMessage) = false := by
      rcases hnotmpl with h | h <;> simp [h]
    constructor
    · intro data ht hns
      rw [isPongMessage_not_str P o data ht hns, if_neg (by simp [hcond])]
      constructor
      · intro h
        simp only [Except.ok.injEq] at h
        rw [ht] at h
        simp only [Bool.true_and, Bool.and_eq_true] at h
        obtain ⟨h1, h2⟩ := h
        refine ⟨h1, ?_⟩
        cases hg : getProp data ("type") with
        | none => rw [hg] at h2; exact absurd h2 (by decide)
        | some tv =>
          rw [hg] at h2
          cases tv <;> simp [strictEq] at h2
          subst h2
          rfl
      · intro ⟨h1, h2⟩
        rw [ht, h1, h2]
        rfl
    · intro t d ht hP
      rw [isPongMessage_str_some P o t d ht hP, if_neg (by simp [hcond])]
      constructor
      · intro h
        simp only [Except.ok.injEq, Bool.and_eq_true] at h
        obtain ⟨⟨h1, h2⟩, h3⟩ := h
        refine ⟨h1, h2, ?_⟩
        cases hg : getProp d ("type") with
        | none => rw [hg] at h3; exact absurd h3 (by decide)
        | some tv =>
          rw [hg] at h3
          cases tv <;> simp [strictEq] at h3
          subst h3
          rfl
      · intro ⟨h1, h2, h3⟩
        rw [h1, h2, h3]
        rfl
  · intro raw now s h
    simp only [wsMessage, h]

end SupaSocket
namespace SupaSocket

/-- A structured pong payload matching the default template. -/
def pongRaw : JValue := .obj [("type", .str ("pong"))]

/-- An open-state engine with an armed heartbeat-timeout timer, for the C4
witness. -/
def sHb : SocketState :=
  { initialState with wsPresent := true, wsReadyState := .OPEN, connState := .OPEN,
                      heartbeatTimeoutTimer := true }

/-- C4 witness: under the default template `{type:'pong'}`, the inbound
payload `{type:'pong'}` is recognised as a pong; the message handler then
disarms the heartbeat-timeout timer and publishes nothing. -/
theorem C4_pong_witness :
    isPongMessage (fun _ => none) (defaultOptions ("ws://example"))
      (handlerData (fun _ => none) (defaultOptions ("ws://example")) pongRaw) = .ok true ∧
    wsMessage (fun _ => none) (defaultOptions ("ws://example")) pongRaw 7 sHb =
      ({ sHb with lastMessageTime := 7, heartbeatTimeoutTimer := false }, []) :=
  ⟨by rfl,
   (C4_pong_amended (fun _ => none) (defaultOptions ("ws://example"))).2.2.2.2
     pongRaw 7 sHb (by rfl)⟩

/-! ## C7: when the reconnect context resets -/

/-- "The reconnect counters are preserved, or both are incremented by one"
— the only two behaviours an operation other than a successful open or an
explicit counter reset may exhibit. -/
def countsPresOrInc (s s1 : SocketState) : Prop :=
  (s1.reconnectCount = s.reconnectCount ∧ s1.currentBackoff = s.currentBackoff) ∨
  (s1.reconnectCount = s.reconnectCount + 1 ∧ s1.currentBackoff = s.currentBackoff + 1)

theorem countsPresOrInc_refl (s : SocketState) : countsPresOrInc s s :=
  Or.inl ⟨rfl, rfl⟩

theorem countsPresOrInc_congr {s s2 x : SocketState}
    (h1 : s2.reconnectCount = s.reconnectCount) (h2 : s2.currentBackoff = s.currentBackoff)
    (h : countsPresOrInc s2 x) : countsPresOrInc s x := by
  unfold countsPresOrInc at *
  rw [h1, h2] at h
  exact h

theorem performReconnect_countsPresOrInc (o : Options) (s : SocketState) :
    countsPresOrInc s (performReconnect o s).1 := by
  by_cases h : effectiveReconnectLimit o ≤ s.reconnectCount
  · rw [performReconnect_exhausted o s h]; exact countsPresOrInc_refl s
  · rw [performReconnect_fst_of_lt o s (not_le.mp h)]; exact Or.inr ⟨rfl, rfl⟩

theorem send_fst_counts (σ : JValue → Bool) (s : SocketState) (d : JValue) :
    (send σ s d).1.reconnectCount = s.reconnectCount ∧
    (send σ s d).1.currentBackoff = s.currentBackoff := by
  unfold send
  split
  · split <;> exact ⟨rfl, rfl⟩
  · split <;> exact ⟨rfl, rfl⟩

theorem startHeartbeatTimeout_counts (o : Options) (x : SocketState) :
    (startHeartbeatTimeout o x).reconnectCount = x.reconnectCount ∧
    (startHeartbeatTimeout o x).currentBackoff = x.currentBackoff := by
  simp only [startHeartbeatTimeout]
  split <;> exact ⟨rfl, rfl⟩

theorem startHeartbeat_fst_counts (o : Options) (x : SocketState) :
    (startHeartbeat o x).1.reconnectCount = x.reconnectCount ∧
    (startHeartbeat o x).1.currentBackoff = x.currentBackoff := by
  simp only [startHeartbeat]
  split <;> exact ⟨rfl, rfl⟩

theorem drainSend_fst_counts (σ : JValue → Bool) (q : List JValue) (s : SocketState) :
    (drainSend σ q s).1.reconnectCount = s.reconnectCount ∧
    (drainSend σ q s).1.currentBackoff = s.currentBackoff := by
  induction q generalizing s with
  | nil => exact ⟨rfl, rfl⟩
  | cons m ms ih =>
    simp only [drainSend]
    obtain ⟨h1, h2⟩ := send_fst_counts σ s m
    obtain ⟨g1, g2⟩ := ih (send σ s m).1
    exact ⟨g1.trans h1, g2.trans h2⟩

theorem processMessageQueue_fst_counts (σ : JValue → Bool) (s : SocketState) :
    (processMessageQueue σ s).1.reconnectCount = s.reconnectCount ∧
    (processMessageQueue σ s).1.currentBackoff = s.currentBackoff := by
  unfold processMessageQueue
  split
  · obtain ⟨h1, h2⟩ := drainSend_fst_counts σ s.messageQueue s
    exact ⟨h1, h2⟩
  · exact ⟨rfl, rfl⟩

theorem wsOpen_counts (σ : JValue → Bool) (o : Options) (s : SocketState) :
    (wsOpen σ o s).1.reconnectCount = 0 ∧ (wsOpen σ o s).1.currentBackoff = 0 := by
  simp only [wsOpen, setState_fst]
  constructor
  · rw [(startHeartbeat_fst_counts o _).1, (processMessageQueue_fst_counts σ _).1]
  · rw [(startHeartbeat_fst_counts o _).2, (processMessageQueue_fst_counts σ _).2]

theorem wsMessage_fst_counts (P : String → Option JValue) (o : Options) (raw : JValue)
    (now : ℚ) (s : SocketState) :
    (wsMessage P o raw now s).1.reconnectCount = s.reconnectCount ∧
    (wsMessage P o raw now s).1.currentBackoff = s.currentBackoff := by
  simp only [wsMessage]
  split
  · exact ⟨rfl, rfl⟩
  · exact ⟨rfl, rfl⟩
  · split <;> exact ⟨rfl, rfl⟩

theorem handleConnectionFailure_counts (o : Options) (s : SocketState) :
    countsPresOrInc s (handleConnectionFailure o s).1 := by
  simp only [handleConnectionFailure]
  split
  · exact countsPresOrInc_congr rfl rfl (performReconnect_countsPresOrInc o _)
  · rw [setState_fst]; exact Or.inl ⟨rfl, rfl⟩

theorem connect_counts (o : Options) (ok : Bool) (s : SocketState) :
    countsPresOrInc s (connect o ok s).1 := by
  simp only [connect, setState_fst]
  split
  · split <;> exact Or.inl ⟨rfl, rfl⟩
  · split
    · exact countsPresOrInc_congr rfl rfl (performReconnect_countsPresOrInc o _)
    · exact Or.inl ⟨rfl, rfl⟩

theorem connect_true_fst (o : Options) (s : SocketState) :
    (connect o true s).1.reconnectCount = s.reconnectCount ∧
    (connect o true s).1.currentBackoff = s.currentBackoff := by
  simp only [connect, setState_fst, reduceIte]
  split <;> exact ⟨rfl, rfl⟩

theorem connect_false_zero (o : Options) (s : SocketState)
    (h1 : s.reconnectCount = 0) (h2 : s.currentBackoff = 0) :
    ((connect o false s).1.reconnectCount = 0 ∧ (connect o false s).1.currentBackoff = 0) ∨
    ((connect o false s).1.reconnectCount = 1 ∧ (connect o false s).1.currentBackoff = 1) := by
  rcases connect_counts o false s with ⟨g1, g2⟩ | ⟨g1, g2⟩
  · left; rw [g1, g2, h1, h2]; exact ⟨rfl, rfl⟩
  · right; rw [g1, g2, h1, h2]; exact ⟨rfl, rfl⟩

theorem wsCloseEv_counts (o : Options) (s : SocketState) :
    countsPresOrInc s (wsCloseEv o s).1 := by
  simp only [wsCloseEv, setState_fst]
  split
  · exact countsPresOrInc_congr rfl rfl (performReconnect_countsPresOrInc o _)
  · exact Or.inl ⟨rfl, rfl⟩

theorem wsErrorEv_counts (o : Options) (s : SocketState) :
    countsPresOrInc s (wsErrorEv o s).1 := by
  simp only [wsErrorEv]
  split
  · exact handleConnectionFailure_counts o s
  · exact countsPresOrInc_refl s

theorem connectionTimeoutFire_counts (o : Options) (s : SocketState) :
    countsPresOrInc s (connectionTimeoutFire o s).1 := by
  simp only [connectionTimeoutFire]
  split
  · exact countsPresOrInc_refl s
  · split
    · exact countsPresOrInc_congr rfl rfl (handleConnectionFailure_counts o _)
    · exact Or.inl ⟨rfl, rfl⟩

theorem heartbeatTick_counts (σ : JValue → Bool) (o : Options) (now : ℚ) (s : SocketState) :
    countsPresOrInc s (heartbeatTick σ o now s).1 := by
  simp only [heartbeatTick]
  split
  · exact countsPresOrInc_refl s
  · left
    exact ⟨(startHeartbeatTimeout_counts o _).1.trans (send_fst_counts σ s _).1,
           (startHeartbeatTimeout_counts o _).2.trans (send_fst_counts σ s _).2⟩

theorem heartbeatTimeoutFire_counts (o : Options) (now : ℚ) (s : SocketState) :
    countsPresOrInc s (heartbeatTimeoutFire o now s).1 := by
  simp only [heartbeatTimeoutFire]
  split
  · exact countsPresOrInc_refl s
  · split
    · split <;> exact countsPresOrInc_congr rfl rfl (performReconnect_countsPresOrInc o _)
    · split <;> exact Or.inl ⟨rfl, rfl⟩

theorem closeOp_counts (s : SocketState) : countsPresOrInc s (closeOp s).1 := by
  simp only [closeOp, setState_fst]
  split <;> exact Or.inl ⟨rfl, rfl⟩

theorem checkConnection_counts (o : Options) (s : SocketState) :
    countsPresOrInc s (checkConnection o s).1 := by
  simp only [checkConnection]
  split
  · exact performReconnect_countsPresOrInc o s
  · exact countsPresOrInc_refl s

theorem destroyOp_counts (s : SocketState) : countsPresOrInc s (destroyOp s).1 := by
  simp only [destroyOp, setState_fst]
  left
  refine ⟨?_, ?_⟩ <;> split <;> rfl

theorem reconnectOp_true_fst (o : Options) (ok : Bool) (s : SocketState) :
    (reconnectOp o true ok s).1 =
      (connect o ok
        { (if s.wsPresent then ({ s with wsReadyState := WsReadyState.CLOSING },
                                 [Action.wsClose])
           else (s, ([] : List Action))).1 with
          reconnectCount := 0, currentBackoff := 0, explicitClose := false }).1 := rfl

theorem reconnectOp_false_fst (o : Options) (ok : Bool) (s : SocketState) :
    (reconnectOp o false ok s).1 =
      (connect o ok
        { (if s.wsPresent then ({ s with wsReadyState := WsReadyState.CLOSING },
                                 [Action.wsClose])
           else (s, ([] : List Action))).1 with explicitClose := false }).1 := rfl

theorem reconnectOp_true_counts (o : Options) (ok : Bool) (s : SocketState) :
    ((reconnectOp o true ok s).1.reconnectCount = 0 ∧
     (reconnectOp o true ok s).1.currentBackoff = 0) ∨
    (ok = false ∧ (reconnectOp o true ok s).1.reconnectCount = 1 ∧
     (reconnectOp o true ok s).1.currentBackoff = 1) := by
  rw [reconnectOp_true_fst]
  cases ok with
  | true =>
    left
    exact ⟨(connect_true_fst o _).1.trans rfl, (connect_true_fst o _).2.trans rfl⟩
  | false =>
    have h := connect_false_zero o
      { (if s.wsPresent then ({ s with wsReadyState := WsReadyState.CLOSING },
                              [Action.wsClose])
         else (s, ([] : List Action))).1 with
        reconnectCount := 0, currentBackoff := 0, explicitClose := false } rfl rfl
    rcases h with ⟨g1, g2⟩ | ⟨g1, g2⟩
    · exact Or.inl ⟨g1, g2⟩
    · exact Or.inr ⟨rfl, g1, g2⟩

theorem reconnectOp_false_counts (o : Options) (ok : Bool) (s : SocketState) :
    countsPresOrInc s (reconnectOp o false ok s).1 := by
  rw [reconnectOp_false_fst]
  refine countsPresOrInc_congr ?_ ?_ (connect_counts o ok _) <;> split <;> rfl

/-- C7: across every engine operation, the reconnect context
(`reconnectCount`, `currentBackoff`) is reset to zero exactly by a
successful transport open and by an explicit `reconnect(true)` (whose reset
is immediately followed by one compounded increment when the platform
socket constructor of the new attempt throws and auto-reconnect fires);
every other operation either leaves both counters unchanged or — when it
routes a failed connection into the reconnection controller — increments
both by one, and in particular never resets them.  Moreover an unexplained
transport close with auto-reconnect enabled and the ceiling not reached
increments both counters by exactly one. -/
theorem C7_reset_context (P : String → Option JValue) (σ : JValue → Bool) (o : Options)
    (op : Op) (s : SocketState) :
    (match op with
     | .wsOpen =>
        (step P σ o op s).1.reconnectCount = 0 ∧ (step P σ o op s).1.currentBackoff = 0
     | .reconnect true ok =>
        ((step P σ o op s).1.reconnectCount = 0 ∧
         (step P σ o op s).1.currentBackoff = 0) ∨
        (ok = false ∧ (step P σ o op s).1.reconnectCount = 1 ∧
         (step P σ o op s).1.currentBackoff = 1)
     | _ => countsPresOrInc s (step P σ o op s).1) ∧
    (¬ s.explicitClose → o.autoReconnect = true →
        s.reconnectCount < effectiveReconnectLimit o →
        (step P σ o .wsClose s).1.reconnectCount = s.reconnectCount + 1 ∧
        (step P σ o .wsClose s).1.currentBackoff = s.currentBackoff + 1) := by
  constructor
  · cases op with
    | connect ok => exact connect_counts o ok s
    | wsOpen => exact wsOpen_counts σ o s
    | wsMessage raw now =>
      exact Or.inl ⟨(wsMessage_fst_counts P o raw now s).1,
                    (wsMessage_fst_counts P o raw now s).2⟩
    | wsClose => exact wsCloseEv_counts o s
    | wsError => exact wsErrorEv_counts o s
    | connTimeoutFire => exact connectionTimeoutFire_counts o s
    | hbTick now => exact heartbeatTick_counts σ o now s
    | hbTimeoutFire now => exact heartbeatTimeoutFire_counts o now s
    | send d => exact Or.inl ⟨(send_fst_counts σ s d).1, (send_fst_counts σ s d).2⟩
    | close => exact closeOp_counts s
    | reconnect b ok =>
      cases b with
      | true => exact reconnectOp_true_counts o ok s
      | false => exact reconnectOp_false_counts o ok s
    | checkConnection => exact checkConnection_counts o s
    | destroy => exact destroyOp_counts s
  · intro hec har hlt
    show (wsCloseEv o s).1.reconnectCount = s.reconnectCount + 1 ∧
         (wsCloseEv o s).1.currentBackoff = s.currentBackoff + 1
    simp only [wsCloseEv, setState_fst]
    rw [if_pos ⟨hec, har⟩]
    rw [performReconnect_fst_of_lt o
      { s with wsReadyState := WsReadyState.CLOSED, heartbeatTimer := false,
               heartbeatTimeoutTimer := false, connectionTimeoutTimer := false,
               connState := ConnectionState.CLOSED } hlt]
    exact ⟨rfl, rfl⟩

/-- C7 witness: an unexplained transport close on a fresh engine with the
default options increments both counters from zero to one. -/
theorem C7_reset_context_witness :
    (¬ initialState.explicitClose) ∧
    ((defaultOptions ("ws://example")).autoReconnect = true) ∧
    (initialState.reconnectCount < effectiveReconnectLimit (defaultOptions ("ws://example"))) ∧
    ((step (fun _ => none) (fun _ => true) (defaultOptions ("ws://example"))
        .wsClose initialState).1.reconnectCount = initialState.reconnectCount + 1 ∧
     (step (fun _ => none) (fun _ => true) (defaultOptions ("ws://example"))
        .wsClose initialState).1.currentBackoff = initialState.currentBackoff + 1) :=
  ⟨by decide, by decide, by decide,
   (C7_reset_context (fun _ => none) (fun _ => true) (defaultOptions ("ws://example"))
      .wsClose initialState).2 (by decide) (by decide) (by decide)⟩

/-! ## C8: once -/

/-- C8: the `once` wrapper runs the user callback before unsubscribing, so
a callback that throws on its first invocation is never unsubscribed (the
exception aborts the wrapper before the `off` line and is swallowed by
`emit`'s per-callback `try`/`catch`): publishing the same event twice
invokes the user callback twice, contradicting the claimed at-most-once
guarantee; the wrapper is still registered after the first publish.  A
non-throwing `once` callback is indeed invoked exactly once across two
synchronous publishes. -/
theorem C8_once_bug :
    (busEmit (busOnce [] ("evt") 1 true) ("evt")).2 = [1] ∧
    (busEmit (busEmit (busOnce [] ("evt") 1 true) ("evt")).1 ("evt")).2 = [1] ∧
    (busEmit (busOnce [] ("evt") 1 true) ("evt")).1 = busOnce [] ("evt") 1 true ∧
    (busEmit (busOnce [] ("evt") 2 false) ("evt")).2 = [2] ∧
    (busEmit (busEmit (busOnce [] ("evt") 2 false) ("evt")).1 ("evt")).2 = [] :=
  ⟨by rfl, by rfl, by rfl, by rfl, by rfl⟩

end SupaSocket
